import Mathlib

/-
  Verification development for the job-finder-tracker repository.

  The repository's computational core lives in the frontend script
  (src/unnamed/part_000, identical to src/frontend/static/script.js up to a
  few extra endpoint constants): status counting (updateStats), status
  display helpers (getStatusText / getStatusIcon), statistics rendering
  (renderStats), HTML escaping (escapeHtml), safe JSON extraction
  (safeJson), and the notification consumers (updateNotificationBadge,
  renderNotificationDropdown, showLoginReminders).

  The FastAPI backend that produces the statistics payload and the
  notification payload is not part of src/; where a claim depends on it,
  the producing computation is modelled from the spec and marked so.

  JavaScript numbers on the small integer ranges involved are modelled as
  Nat / Int / Rat; JavaScript property lookup on object literals is
  modelled faithfully, including lookup of inherited Object.prototype
  members (which are defined, truthy values in JavaScript).
-/

namespace JobTracker

/-- An application record as handled by the frontend
(fields nome, empresa, data, role, status, chance of the JSON payload). -/
structure Application where
  nome : String
  empresa : String
  data : String
  role : String
  status : String
  chance : Int
deriving DecidableEq, Repr

/-- The four counters held by the `stats` object literal of `updateStats`
(src/unnamed/part_000 lines 417-433). -/
structure StatsCounts where
  esperando : Nat
  entrevista : Nat
  rejeitado : Nat
  total : Nat
deriving DecidableEq, Repr

/-- One iteration of the `applications.forEach` loop of `updateStats`:
`if (stats[app.status] !== undefined) stats[app.status]++`.
The object literal `stats` has own properties `esperando`, `entrevista`,
`rejeitado` and `total`, all numbers, so the lookup is defined (and the
counter incremented) for each of those four strings — including `"total"`.
For a status string naming an inherited `Object.prototype` member
(e.g. `"toString"`), the lookup is also defined, and the increment writes
a `NaN`-valued own property of that name; none of the four counters is
affected, so such statuses leave this structure unchanged. -/
def updateStatsStep (stats : StatsCounts) (status : String) : StatsCounts :=
  if status = "esperando" then
    ⟨stats.esperando + 1, stats.entrevista, stats.rejeitado, stats.total⟩
  else if status = "entrevista" then
    ⟨stats.esperando, stats.entrevista + 1, stats.rejeitado, stats.total⟩
  else if status = "rejeitado" then
    ⟨stats.esperando, stats.entrevista, stats.rejeitado + 1, stats.total⟩
  else if status = "total" then
    ⟨stats.esperando, stats.entrevista, stats.rejeitado, stats.total + 1⟩
  else
    stats

/-- The `updateStats` function (src/unnamed/part_000 lines 417-433):
counters start at zero with `total: applications.length`, then the
`forEach` loop runs `updateStatsStep` over the records in order. -/
def updateStats (applications : List Application) : StatsCounts :=
  applications.foldl (fun st app => updateStatsStep st app.status)
    ⟨0, 0, 0, applications.length⟩

/-- A JavaScript value as it can flow out of the status display helpers:
either a string, or an inherited `Object.prototype` member (a function or
object, which is truthy and so survives a `|| fallback`). -/
inductive JsValue where
  | str (s : String)
  | protoMember (name : String)
deriving DecidableEq, Repr

/-- The own property names of `Object.prototype`: for any of these keys,
property lookup on an object literal that does not shadow them yields the
inherited member — a defined, truthy value. -/
def objectProtoKeys : List String :=
  ["constructor", "hasOwnProperty", "isPrototypeOf", "propertyIsEnumerable",
   "toLocaleString", "toString", "valueOf",
   "__defineGetter__", "__defineSetter__", "__lookupGetter__",
   "__lookupSetter__", "__proto__"]

/-- The `getStatusText` function (src/unnamed/part_000 lines 626-629):
`texts[status] || status` over the literal
`{ esperando: "Esperando", entrevista: "Entrevista", rejeitado: "Rejeitado" }`.
For a key naming an inherited `Object.prototype` member the lookup yields
that (truthy) member, so the `|| status` fallback is not taken. -/
def getStatusText (status : String) : JsValue :=
  if status = "esperando" then .str "Esperando"
  else if status = "entrevista" then .str "Entrevista"
  else if status = "rejeitado" then .str "Rejeitado"
  else if status ∈ objectProtoKeys then .protoMember status
  else .str status

/-- The `getStatusIcon` function (src/unnamed/part_000 lines 620-623):
`icons[status] || "📝"` over
`{ esperando: "⏳", entrevista: "🎯", rejeitado: "❌" }`, with the same
inherited-member caveat as `getStatusText`. -/
def getStatusIcon (status : String) : JsValue :=
  if status = "esperando" then .str "⏳"
  else if status = "entrevista" then .str "🎯"
  else if status = "rejeitado" then .str "❌"
  else if status ∈ objectProtoKeys then .protoMember status
  else .str "📝"

/-- Milliseconds per day, the divisor `1000 * 60 * 60 * 24` of `renderStats`. -/
def msPerDay : Int := 86400000

/-- The days-in-use computation of `renderStats`
(src/unnamed/part_000 lines 712-717): if the payload carries a first
application date, `diasUso = Math.floor((hoje - primeira) / 86400000)`,
where `primeira` is the parsed date (modelled as its millisecond
timestamp) and `hoje` is the instant that `renderStats` itself reads from
the wall clock via `new Date()`; otherwise `diasUso` stays 0.
`Math.floor` on the real quotient is floor division, `Int.fdiv`. -/
def diasUso (primeira_candidatura : Option Int) (hoje : Int) : Int :=
  match primeira_candidatura with
  | none => 0
  | some primeira => (hoje - primeira).fdiv msPerDay

/-- Per-field accounting of the `updateStats` fold: starting from any
accumulator, each counter grows by the number of records whose status
selects it. -/
theorem updateStats_foldl (init : StatsCounts) (l : List Application) :
    l.foldl (fun st app => updateStatsStep st app.status) init =
      ⟨init.esperando + l.countP (fun a => a.status == "esperando"),
       init.entrevista + l.countP (fun a => a.status == "entrevista"),
       init.rejeitado + l.countP (fun a => a.status == "rejeitado"),
       init.total + l.countP (fun a => a.status == "total")⟩ := by
  induction l generalizing init with
  | nil => simp [List.countP_nil]
  | cons a t ih =>
      rw [List.foldl_cons, ih]
      simp only [List.countP_cons]
      by_cases h1 : a.status = "esperando"
      · simp [updateStatsStep, h1]; omega
      · by_cases h2 : a.status = "entrevista"
        · simp [updateStatsStep, h1, h2]; omega
        · by_cases h3 : a.status = "rejeitado"
          · simp [updateStatsStep, h1, h2, h3]; omega
          · by_cases h4 : a.status = "total"
            · simp [updateStatsStep, h1, h2, h3, h4]; omega
            · simp [updateStatsStep, h1, h2, h3, h4]

/-- A concrete application record whose status string is `"total"` — a key
that the `stats` object literal of `updateStats` does own. -/
def totalStatusApp : Application :=
  ⟨"Dev Python", "Acme", "2024-01-05", "Backend", "total", 50⟩

/-- A concrete application record with an ordinary unknown status string. -/
def ghostedApp : Application :=
  ⟨"Dev Python", "Acme", "2024-01-05", "Backend", "ghosted", 50⟩

/-- C7 counterexample: on the one-element list whose record carries status
`"total"`, the `total` counter of `updateStats` is 2, not the list's
length 1 — the guard `stats[app.status] !== undefined` accepts the own
property `"total"` and increments it a second time. -/
theorem c7_total_counter_cex :
    (updateStats [totalStatusApp]).total ≠ [totalStatusApp].length := by
  decide

/-- C7 (amended): updateStats returns, for each known status, the number of
records carrying that status, and a `total` equal to the input length plus
the number of records whose status is the string `"total"` (so `total`
equals the length whenever no record carries that status). The computation
is a pure function of the list — the `forEach` loop only reads the records
— so repeated calls agree. -/
theorem c7_updateStats_counts (apps : List Application) :
    updateStats apps =
      ⟨apps.countP (fun a => a.status == "esperando"),
       apps.countP (fun a => a.status == "entrevista"),
       apps.countP (fun a => a.status == "rejeitado"),
       apps.length + apps.countP (fun a => a.status == "total")⟩ := by
  rw [updateStats, updateStats_foldl]
  simp

/-- C6 counterexample: for the unknown status `"toString"` the display
helpers return the inherited `Object.prototype.toString` member (truthy,
so the `||` fallback is skipped) instead of the status string / default
icon; and a record with unknown status `"total"` increments the `total`
counter a second time instead of being counted once. -/
theorem c6_unknown_status_cex :
    getStatusText "toString" ≠ JsValue.str "toString" ∧
    getStatusIcon "toString" ≠ JsValue.str "📝" ∧
    (updateStats [totalStatusApp]).total ≠ (updateStats []).total + 1 := by
  refine ⟨by decide, by decide, by decide⟩

/-- C6 (amended): for every status string outside the known enum that is
neither the own key `"total"` nor the name of an inherited
`Object.prototype` member, the helpers degrade gracefully without
throwing: `getStatusText` returns the status unchanged, `getStatusIcon`
returns the default icon, and a record with that status leaves the three
known-status counters of `updateStats` unaffected while being counted
exactly once in the total. -/
theorem c6_unknown_status_graceful (a : Application) (apps : List Application)
    (h1 : a.status ≠ "esperando") (h2 : a.status ≠ "entrevista")
    (h3 : a.status ≠ "rejeitado") (h4 : a.status ≠ "total")
    (h5 : a.status ∉ objectProtoKeys) :
    getStatusText a.status = JsValue.str a.status ∧
    getStatusIcon a.status = JsValue.str "📝" ∧
    (updateStats (a :: apps)).esperando = (updateStats apps).esperando ∧
    (updateStats (a :: apps)).entrevista = (updateStats apps).entrevista ∧
    (updateStats (a :: apps)).rejeitado = (updateStats apps).rejeitado ∧
    (updateStats (a :: apps)).total = (updateStats apps).total + 1 := by
  refine ⟨?_, ?_, ?_, ?_, ?_, ?_⟩
  · simp [getStatusText, h1, h2, h3, h5]
  · simp [getStatusIcon, h1, h2, h3, h5]
  all_goals
    simp only [c7_updateStats_counts, List.countP_cons, List.length_cons]
  · simp [h1]
  · simp [h2]
  · simp [h3]
  · simp [h4]; omega

/-- Witness for the amended C6 at the concrete status `"ghosted"`. -/
theorem c6_unknown_status_graceful_witness :
    getStatusText "ghosted" = JsValue.str "ghosted" ∧
    getStatusIcon "ghosted" = JsValue.str "📝" ∧
    (updateStats [ghostedApp]).esperando = (updateStats []).esperando ∧
    (updateStats [ghostedApp]).entrevista = (updateStats []).entrevista ∧
    (updateStats [ghostedApp]).rejeitado = (updateStats []).rejeitado ∧
    (updateStats [ghostedApp]).total = (updateStats []).total + 1 :=
  c6_unknown_status_graceful ghostedApp []
    (by decide) (by decide) (by decide) (by decide) (by decide)

/-- C5 counterexample: `renderStats` reads the wall clock itself
(`const hoje = new Date()`, src/unnamed/part_000 line 715) instead of
taking `now` as an input parameter, so for one fixed statistics input its
days-in-use output differs across two clock readings one day apart. -/
theorem c5_clock_dependence_cex :
    diasUso (some 0) 0 ≠ diasUso (some 0) msPerDay := by
  decide

/-- C5 (amended): `updateStats` takes no clock at all and is deterministic
— its output is a pure function of the records' status fields alone — while
`renderStats` reads the wall clock directly, so its days-in-use output is
determined only jointly by the statistics input and the ambient clock
reading (and is reproducible for a fixed reading). -/
theorem c5_updateStats_status_function (l1 l2 : List Application)
    (h : l1.map Application.status = l2.map Application.status) :
    updateStats l1 = updateStats l2 := by
  have hlen : l1.length = l2.length := by
    have := congrArg List.length h
    simpa using this
  have hc : ∀ s : String,
      l1.countP (fun a => a.status == s) = l2.countP (fun a => a.status == s) := by
    intro s
    have h1 : l1.countP (fun a => a.status == s) =
        (l1.map Application.status).countP (fun t => t == s) := by
      rw [List.countP_map]; rfl
    have h2 : l2.countP (fun a => a.status == s) =
        (l2.map Application.status).countP (fun t => t == s) := by
      rw [List.countP_map]; rfl
    rw [h1, h2, h]
  rw [c7_updateStats_counts, c7_updateStats_counts, hlen, hc, hc, hc, hc]

/-- Witness for the amended C5: two concrete lists that differ in every
field except the statuses produce identical counters. -/
theorem c5_updateStats_status_function_witness :
    updateStats [⟨"Dev", "Acme", "2024-01-05", "Backend", "esperando", 50⟩] =
      updateStats [⟨"QA", "Globex", "2024-02-01", "Tester", "esperando", 10⟩] :=
  c5_updateStats_status_function _ _ (by decide)

/-- C4 counterexample: with the earliest application date one day in the
future relative to the clock reading, `renderStats` displays a negative
days-in-use value (`Math.floor` of a negative quotient is -1, and the code
never clamps it to 0). -/
theorem c4_negative_diasUso_cex : diasUso (some msPerDay) 0 < 0 := by
  decide

/-- C4 (amended): the days-in-use value is the floor of the elapsed
milliseconds divided by one day — it is the unique integer d with
d·day ≤ hoje - primeira < (d+1)·day — hence it equals the whole days
elapsed and is nonnegative when the earliest date is not in the future,
but it is negative (not clamped to 0) when the earliest date lies in the
future; it is 0 when no earliest date is present. -/
theorem c4_diasUso_floor (p hoje : Int) :
    (msPerDay * diasUso (some p) hoje ≤ hoje - p ∧
      hoje - p < msPerDay * (diasUso (some p) hoje + 1)) ∧
    (p ≤ hoje → 0 ≤ diasUso (some p) hoje) ∧
    (hoje < p → diasUso (some p) hoje < 0) ∧
    diasUso none hoje = 0 := by
  have hb : (0 : Int) < msPerDay := by decide
  have hmod := Int.fmod_add_fdiv (hoje - p) msPerDay
  have hmn := Int.fmod_nonneg' (hoje - p) hb
  have hml := Int.fmod_lt_of_pos (hoje - p) hb
  simp only [diasUso, msPerDay] at hmod hmn hml ⊢
  exact ⟨⟨by omega, by omega⟩, fun h => by omega, fun h => by omega, by trivial⟩

/-- Witness for the amended C4 at concrete instants: just over one day of
use gives a nonnegative floor value, and a future earliest date gives a
negative one. -/
theorem c4_diasUso_floor_witness :
    (msPerDay * diasUso (some 0) 90000000 ≤ 90000000 - 0 ∧
      90000000 - 0 < msPerDay * (diasUso (some 0) 90000000 + 1)) ∧
    0 ≤ diasUso (some 0) 90000000 ∧
    diasUso (some 90000000) 0 < 0 :=
  ⟨(c4_diasUso_floor 0 90000000).1,
   (c4_diasUso_floor 0 90000000).2.1 (by decide),
   (c4_diasUso_floor 90000000 0).2.2.1 (by decide)⟩

/-- The statistics payload of the backend endpoint `/users/me/stats` as
consumed by `renderStats`. The first-application date is modelled as its
parsed millisecond timestamp, absent when the payload carries none. -/
structure StatsPayload where
  total : Nat
  esperando : Nat
  entrevista : Nat
  rejeitado : Nat
  taxa_conversao : Int
  primeira_candidatura : Option Int
deriving DecidableEq, Repr

/-- One displayed percentage row of `renderStats`
(src/unnamed/part_000 lines 708-710):
`stats.total > 0 ? Math.round((count / stats.total) * 100) : 0`.
The division sits under the `total > 0` guard, so the division-by-zero
branch is never evaluated; `Math.round` rounds half toward positive
infinity, exactly as `round` on ℚ does. -/
def percRow (count total : Nat) : Int :=
  if 0 < total then round (((count : ℚ) / (total : ℚ)) * 100) else 0

/-- The three per-status percentages computed and displayed by
`renderStats` (percEsperando, percEntrevista, percRejeitado). -/
def renderStatsPercs (s : StatsPayload) : Int × Int × Int :=
  (percRow s.esperando s.total, percRow s.entrevista s.total,
   percRow s.rejeitado s.total)

/-- Modelled from the spec: the backend StatsAggregator (the FastAPI
service is not under src/) counts applications per status, reports the
input size as `total`, and computes `taxa_conversao` as
count(status == entrevista) / total expressed as a rounded percentage,
0 when total is 0 (never dividing by zero). -/
def backendStats (apps : List Application) (primeira : Option Int) : StatsPayload :=
  ⟨apps.length,
   apps.countP (fun a => a.status == "esperando"),
   apps.countP (fun a => a.status == "entrevista"),
   apps.countP (fun a => a.status == "rejeitado"),
   percRow (apps.countP (fun a => a.status == "entrevista")) apps.length,
   primeira⟩

/-- A percentage row over a count that cannot exceed the total is the
rounded percentage, an integer between 0 and 100; it is 0 when the total
is 0. -/
theorem percRow_spec (c t : Nat) (hc : c ≤ t) :
    (0 < t → percRow c t = round (((c : ℚ) / (t : ℚ)) * 100) ∧
      0 ≤ percRow c t ∧ percRow c t ≤ 100) ∧
    (t = 0 → percRow c t = 0) := by
  constructor
  · intro ht
    have htq : (0 : ℚ) < (t : ℚ) := by exact_mod_cast ht
    have h0 : (0 : ℚ) ≤ ((c : ℚ) / (t : ℚ)) * 100 := by positivity
    have h1 : ((c : ℚ) / (t : ℚ)) ≤ 1 := by
      rw [div_le_one htq]
      exact_mod_cast hc
    have h2 : ((c : ℚ) / (t : ℚ)) * 100 ≤ 100 := by nlinarith
    refine ⟨by rw [percRow, if_pos ht], ?_, ?_⟩
    · rw [percRow, if_pos ht, round_eq]
      have hx : (0 : ℚ) ≤ ((c : ℚ) / (t : ℚ)) * 100 + 1 / 2 := by linarith
      exact Int.floor_nonneg.2 hx
    · rw [percRow, if_pos ht, round_eq]
      have hx : ((c : ℚ) / (t : ℚ)) * 100 + 1 / 2 < ((101 : ℤ) : ℚ) := by
        push_cast
        linarith
      have := Int.floor_lt.2 hx
      omega
  · intro ht
    simp [percRow, ht]

/-- C3: on any statistics payload produced by the aggregator, each
displayed percentage — the three per-status shares computed by
`renderStats` and the conversion rate it displays verbatim — equals
round(count / total · 100), an integer in [0,100], when total > 0, and
equals 0 when total is 0 (the division-by-zero branch of the ternary is
never taken). -/
theorem c3_displayed_percentages (apps : List Application) (primeira : Option Int) :
    let s := backendStats apps primeira
    (0 < s.total →
      (renderStatsPercs s).1 = round (((s.esperando : ℚ) / (s.total : ℚ)) * 100) ∧
      (renderStatsPercs s).2.1 = round (((s.entrevista : ℚ) / (s.total : ℚ)) * 100) ∧
      (renderStatsPercs s).2.2 = round (((s.rejeitado : ℚ) / (s.total : ℚ)) * 100) ∧
      s.taxa_conversao = round (((s.entrevista : ℚ) / (s.total : ℚ)) * 100) ∧
      0 ≤ (renderStatsPercs s).1 ∧ (renderStatsPercs s).1 ≤ 100 ∧
      0 ≤ (renderStatsPercs s).2.1 ∧ (renderStatsPercs s).2.1 ≤ 100 ∧
      0 ≤ (renderStatsPercs s).2.2 ∧ (renderStatsPercs s).2.2 ≤ 100 ∧
      0 ≤ s.taxa_conversao ∧ s.taxa_conversao ≤ 100) ∧
    (s.total = 0 →
      (renderStatsPercs s).1 = 0 ∧ (renderStatsPercs s).2.1 = 0 ∧
      (renderStatsPercs s).2.2 = 0 ∧ s.taxa_conversao = 0) := by
  intro s
  have hesp : s.esperando ≤ s.total := List.countP_le_length _
  have hent : s.entrevista ≤ s.total := List.countP_le_length _
  have hrej : s.rejeitado ≤ s.total := List.countP_le_length _
  have pe := percRow_spec s.esperando s.total hesp
  have pi := percRow_spec s.entrevista s.total hent
  have pr := percRow_spec s.rejeitado s.total hrej
  constructor
  · intro ht
    obtain ⟨e1, e2, e3⟩ := pe.1 ht
    obtain ⟨i1, i2, i3⟩ := pi.1 ht
    obtain ⟨r1, r2, r3⟩ := pr.1 ht
    exact ⟨e1, i1, r1, i1, e2, e3, i2, i3, r2, r3, i2, i3⟩
  · intro ht
    exact ⟨pe.2 ht, pi.2 ht, pr.2 ht, pi.2 ht⟩

/-- A concrete list matching the spec's worked statistics example: two
interview-status applications and one waiting, so the conversion rate
rounds 200/3 up to 67. -/
def exampleApps : List Application :=
  [⟨"Dev", "Acme", "2024-01-05", "Backend", "entrevista", 50⟩,
   ⟨"Dev", "Acme", "2024-01-10", "Backend", "entrevista", 50⟩,
   ⟨"QA", "Globex", "2024-02-01", "Tester", "esperando", 10⟩]

/-- Witness for C3 on the three-application example. -/
theorem c3_displayed_percentages_witness :
    (renderStatsPercs (backendStats exampleApps none)).1 =
      round ((((backendStats exampleApps none).esperando : ℚ) /
        ((backendStats exampleApps none).total : ℚ)) * 100) ∧
    (renderStatsPercs (backendStats exampleApps none)).2.1 =
      round ((((backendStats exampleApps none).entrevista : ℚ) /
        ((backendStats exampleApps none).total : ℚ)) * 100) ∧
    (renderStatsPercs (backendStats exampleApps none)).2.2 =
      round ((((backendStats exampleApps none).rejeitado : ℚ) /
        ((backendStats exampleApps none).total : ℚ)) * 100) ∧
    (backendStats exampleApps none).taxa_conversao =
      round ((((backendStats exampleApps none).entrevista : ℚ) /
        ((backendStats exampleApps none).total : ℚ)) * 100) ∧
    0 ≤ (renderStatsPercs (backendStats exampleApps none)).1 ∧
    (renderStatsPercs (backendStats exampleApps none)).1 ≤ 100 ∧
    0 ≤ (renderStatsPercs (backendStats exampleApps none)).2.1 ∧
    (renderStatsPercs (backendStats exampleApps none)).2.1 ≤ 100 ∧
    0 ≤ (renderStatsPercs (backendStats exampleApps none)).2.2 ∧
    (renderStatsPercs (backendStats exampleApps none)).2.2 ≤ 100 ∧
    0 ≤ (backendStats exampleApps none).taxa_conversao ∧
    (backendStats exampleApps none).taxa_conversao ≤ 100 :=
  (c3_displayed_percentages exampleApps none).1 (by decide)

/-- A notification view record of the backend payload, as consumed by
`renderNotificationItem` and `showLoginReminders` (fields id,
application_nome, application_empresa, interview_datetime,
interview_type; the datetime is modelled as its millisecond timestamp). -/
structure NotificationItem where
  id : Int
  application_nome : String
  application_empresa : String
  interview_datetime : Int
  interview_type : String
deriving DecidableEq, Repr

/-- The visual state that `updateNotificationBadge` leaves on the badge
element: its `style.display`, its `textContent`, and whether the bell has
the `has-notifications` class. -/
structure BadgeView where
  display : String
  text : String
  hasNotifications : Bool
deriving DecidableEq, Repr

/-- The `updateNotificationBadge` function
(src/unnamed/part_000 lines 1359-1373): for a positive count the badge is
shown (`display: flex`) with text `"9+"` when the count exceeds 9 and the
decimal string of the count otherwise; for any other count the badge is
hidden (`display: none`) with text `"0"`. -/
def updateNotificationBadge (count : Int) : BadgeView :=
  if 0 < count then
    ⟨"flex", if 9 < count then "9+" else toString count, true⟩
  else
    ⟨"none", "0", false⟩

/-- The kind of toast that `showToast` is called with. -/
inductive ToastKind where
  | success
  | error
deriving DecidableEq, Repr

/-- A toast request: message text and kind. -/
structure Toast where
  message : String
  kind : ToastKind
deriving DecidableEq, Repr

/-- The message selection of `showLoginReminders`
(src/unnamed/part_000 lines 1465-1494), as a function of the payload's
`today` and `tomorrow` lists: a (pluralized) "hoje" toast of kind error
when `today` is non-empty, else a (pluralized) "amanha" toast of kind
success when `tomorrow` is non-empty, else no toast at all. -/
def showLoginReminders (today tomorrow : List NotificationItem) : Option Toast :=
  if 0 < today.length then
    some ⟨if today.length = 1 then "Voce tem 1 entrevista hoje!"
          else "Voce tem " ++ toString today.length ++ " entrevistas hoje!",
          ToastKind.error⟩
  else if 0 < tomorrow.length then
    some ⟨if tomorrow.length = 1 then "Voce tem 1 entrevista amanha"
          else "Voce tem " ++ toString tomorrow.length ++ " entrevistas amanha",
          ToastKind.success⟩
  else
    none

/-- An interview record as the classifier sees it (scheduled instant in
milliseconds, denormalized application name and company). -/
structure InterviewRecord where
  id : Int
  application_nome : String
  application_empresa : String
  scheduled_ms : Int
  interview_type : String
  status : String
deriving DecidableEq, Repr

/-- The three reminder buckets. -/
inductive Bucket where
  | today
  | tomorrow
  | thisWeek
deriving DecidableEq, Repr

/-- Modelled from the spec: the viewer's local calendar day index of an
instant, given the viewer's offset from UTC in milliseconds (calendar-day
semantics, not a rolling 24-hour window). -/
def localDayIndex (tzOffset ms : Int) : Int :=
  (ms + tzOffset).fdiv msPerDay

/-- Modelled from the spec: the bucket the backend ReminderClassifier
(the FastAPI service is not under src/) assigns to one interview record.
Only records in status "scheduled" whose instant is not in the past are
bucketed: same local calendar day as now is `today`, exactly the next day
is `tomorrow`, after tomorrow but within 7 calendar days inclusive is
`thisWeek`; anything else lands in no bucket. -/
def bucketOf (tzOffset now : Int) (iv : InterviewRecord) : Option Bucket :=
  if iv.status = "scheduled" ∧ now ≤ iv.scheduled_ms then
    if localDayIndex tzOffset iv.scheduled_ms - localDayIndex tzOffset now = 0 then
      some Bucket.today
    else if localDayIndex tzOffset iv.scheduled_ms - localDayIndex tzOffset now = 1 then
      some Bucket.tomorrow
    else if 2 ≤ localDayIndex tzOffset iv.scheduled_ms - localDayIndex tzOffset now ∧
        localDayIndex tzOffset iv.scheduled_ms - localDayIndex tzOffset now ≤ 7 then
      some Bucket.thisWeek
    else
      none
  else
    none

/-- The denormalized view record the classifier emits for one interview. -/
def toNotificationItem (iv : InterviewRecord) : NotificationItem :=
  ⟨iv.id, iv.application_nome, iv.application_empresa, iv.scheduled_ms,
   iv.interview_type⟩

/-- The notification payload (`data.today`, `data.tomorrow`,
`data.this_week`, `data.total_count`) consumed by
`renderNotificationDropdown`, `updateNotificationBadge` and
`showLoginReminders`. -/
structure NotificationData where
  today : List NotificationItem
  tomorrow : List NotificationItem
  this_week : List NotificationItem
  total_count : Nat
deriving DecidableEq, Repr

/-- Modelled from the spec: the backend ReminderClassifier partitions the
interview records into the three bucket lists and reports as
`total_count` the number of records that land in some bucket. -/
def classifyReminders (tzOffset now : Int) (ivs : List InterviewRecord) :
    NotificationData :=
  ⟨(ivs.filter (fun iv => bucketOf tzOffset now iv == some Bucket.today)).map
      toNotificationItem,
   (ivs.filter (fun iv => bucketOf tzOffset now iv == some Bucket.tomorrow)).map
      toNotificationItem,
   (ivs.filter (fun iv => bucketOf tzOffset now iv == some Bucket.thisWeek)).map
      toNotificationItem,
   (ivs.filter (fun iv => (bucketOf tzOffset now iv).isSome)).length⟩

/-- What `renderNotificationDropdown` leaves in the dropdown body: the
"Nenhuma entrevista proxima" empty message, or the list of category
sections (header text paired with the items rendered under it). -/
inductive DropdownBody where
  | emptyMessage
  | sections (secs : List (String × List NotificationItem))
deriving DecidableEq, Repr

/-- The `renderNotificationDropdown` function
(src/unnamed/part_000 lines 1375-1402): the empty message exactly under
`data.total_count === 0`, otherwise the "Hoje" / "Amanha" / "Esta Semana"
sections for whichever lists are non-empty. -/
def renderNotificationDropdown (data : NotificationData) : DropdownBody :=
  if data.total_count = 0 then
    DropdownBody.emptyMessage
  else
    DropdownBody.sections
      ((if 0 < data.today.length then [("Hoje", data.today)] else []) ++
       (if 0 < data.tomorrow.length then [("Amanha", data.tomorrow)] else []) ++
       (if 0 < data.this_week.length then [("Esta Semana", data.this_week)] else []))

/-- The filter defining `total_count` splits as the three disjoint bucket
filters: the if/else-if chain of `bucketOf` assigns at most one bucket to
each record. -/
theorem classify_count_split (tzOffset now : Int) (ivs : List InterviewRecord) :
    (ivs.filter (fun iv => (bucketOf tzOffset now iv).isSome)).length =
      (ivs.filter (fun iv => bucketOf tzOffset now iv == some Bucket.today)).length +
      (ivs.filter (fun iv => bucketOf tzOffset now iv == some Bucket.tomorrow)).length +
      (ivs.filter (fun iv => bucketOf tzOffset now iv == some Bucket.thisWeek)).length := by
  induction ivs with
  | nil => simp
  | cons iv t ih =>
      cases h : bucketOf tzOffset now iv with
      | none => simp [List.filter_cons, h, ih]
      | some b =>
          cases b <;> simp [List.filter_cons, h, ih] <;> omega

/-- C1: for every notification payload produced by the classifier, the
total count equals the sum of the three list lengths, it is 0 exactly when
all three lists are empty, and the consumers render the empty state
exactly then: `renderNotificationDropdown` emits the "Nenhuma entrevista
proxima" message iff the total count is 0, and `updateNotificationBadge`
hides the badge iff the total count is 0. -/
theorem c1_notification_payload (tzOffset now : Int) (ivs : List InterviewRecord) :
    let out := classifyReminders tzOffset now ivs
    out.total_count = out.today.length + out.tomorrow.length + out.this_week.length ∧
    (out.total_count = 0 ↔
      out.today = [] ∧ out.tomorrow = [] ∧ out.this_week = []) ∧
    (renderNotificationDropdown out = DropdownBody.emptyMessage ↔
      out.total_count = 0) ∧
    ((updateNotificationBadge (out.total_count : Int)).display = "none" ↔
      out.total_count = 0) := by
  intro out
  have hsum : out.total_count =
      out.today.length + out.tomorrow.length + out.this_week.length := by
    show (ivs.filter (fun iv => (bucketOf tzOffset now iv).isSome)).length = _
    rw [classify_count_split tzOffset now ivs]
    simp [out, classifyReminders]
  refine ⟨hsum, ?_, ?_, ?_⟩
  · constructor
    · intro h
      rw [hsum] at h
      refine ⟨?_, ?_, ?_⟩ <;> rw [← List.length_eq_zero] <;> omega
    · rintro ⟨h1, h2, h3⟩
      rw [hsum, h1, h2, h3]
      rfl
  · by_cases h : out.total_count = 0
    · simp [renderNotificationDropdown, h]
    · simp [renderNotificationDropdown, h]
  · by_cases h : out.total_count = 0
    · simp [updateNotificationBadge, h]
    · have hpos : (0 : Int) < (out.total_count : Int) := by
        exact_mod_cast Nat.pos_of_ne_zero h
      simp [updateNotificationBadge, hpos, h]

/-- C2: the login-reminder toast is the pluralized "hoje" error message
(singular exactly when the today list has one element) whenever `today` is
non-empty, else the pluralized "amanha" success message when `tomorrow` is
non-empty, else nothing at all. -/
theorem c2_login_reminder_messages (today tomorrow : List NotificationItem) :
    (today ≠ [] → showLoginReminders today tomorrow =
      some ⟨if today.length = 1 then "Voce tem 1 entrevista hoje!"
            else "Voce tem " ++ toString today.length ++ " entrevistas hoje!",
            ToastKind.error⟩) ∧
    (today = [] → tomorrow ≠ [] → showLoginReminders today tomorrow =
      some ⟨if tomorrow.length = 1 then "Voce tem 1 entrevista amanha"
            else "Voce tem " ++ toString tomorrow.length ++ " entrevistas amanha",
            ToastKind.success⟩) ∧
    (today = [] → tomorrow = [] → showLoginReminders today tomorrow = none) := by
  refine ⟨?_, ?_, ?_⟩
  · intro h
    have hl : 0 < today.length := List.length_pos.2 h
    simp [showLoginReminders, hl]
  · intro h1 h2
    have hl : 0 < tomorrow.length := List.length_pos.2 h2
    simp [showLoginReminders, h1, hl]
  · intro h1 h2
    simp [showLoginReminders, h1, h2]

/-- A concrete notification view record. -/
def sampleItem : NotificationItem :=
  ⟨1, "Dev Python", "Acme", 1706536800000, "video"⟩

/-- Witness for C2: one interview today yields the singular "hoje" toast. -/
theorem c2_login_reminder_messages_witness :
    showLoginReminders [sampleItem] [] =
      some ⟨if ([sampleItem] : List NotificationItem).length = 1 then
              "Voce tem 1 entrevista hoje!"
            else "Voce tem " ++ toString ([sampleItem] : List NotificationItem).length ++
              " entrevistas hoje!",
            ToastKind.error⟩ :=
  (c2_login_reminder_messages [sampleItem] []).1 (by simp)

/-- C10: `updateNotificationBadge` hides the badge exactly for counts that
are zero or negative, and for a positive count shows it with text "9+"
when the count exceeds 9 and the decimal string of the count otherwise. -/
theorem c10_badge_visibility (count : Int) :
    ((updateNotificationBadge count).display = "none" ↔ count ≤ 0) ∧
    (0 < count → (updateNotificationBadge count).display = "flex" ∧
      (updateNotificationBadge count).text =
        (if 9 < count then "9+" else toString count)) := by
  constructor
  · by_cases h : 0 < count
    · simp only [updateNotificationBadge, if_pos h]
      constructor
      · intro habs
        exact absurd habs (by decide)
      · intro hle
        omega
    · simp [updateNotificationBadge, h]
      omega
  · intro h
    simp [updateNotificationBadge, h]

/-- Witness for C10 at count 12: badge shown with the "9+" text. -/
theorem c10_badge_visibility_witness :
    (updateNotificationBadge 12).display = "flex" ∧
    (updateNotificationBadge 12).text = (if (9 : Int) < 12 then "9+" else toString (12 : Int)) :=
  (c10_badge_visibility 12).2 (by decide)

/-- JavaScript `String.prototype.replaceAll` with a single-character
pattern: each occurrence of the pattern character is replaced by the
replacement string, scanning left to right. -/
def jsReplaceAll : List Char → Char → List Char → List Char
  | [], _, _ => []
  | c :: cs, pat, rep => (if c = pat then rep else [c]) ++ jsReplaceAll cs pat rep

/-- The five chained `replaceAll` passes of `escapeHtml`
(src/unnamed/part_000 lines 660-668): `&` first, then `<`, `>`, `"`, `'`. -/
def escapeHtmlChars (s : List Char) : List Char :=
  jsReplaceAll (jsReplaceAll (jsReplaceAll (jsReplaceAll (jsReplaceAll s
    '&' "&amp;".toList) '<' "&lt;".toList) '>' "&gt;".toList)
    '"' "&quot;".toList) '\'' "&#039;".toList

/-- The `escapeHtml` function: `String(v ?? "")` maps null and undefined
to the empty string (modelled by `none`; any other value enters as its
string conversion), then the five `replaceAll` passes run. The function
is total — it never throws. -/
def escapeHtml (v : Option String) : String :=
  String.mk (escapeHtmlChars (v.getD "").toList)

/-- The per-character effect of the five chained passes: `&` was replaced
first, and no later pass touches the `&` or letters that the earlier
replacements introduced, so the chain acts character by character. -/
def escapeTok (c : Char) : List Char :=
  if c = '&' then "&amp;".toList
  else if c = '<' then "&lt;".toList
  else if c = '>' then "&gt;".toList
  else if c = '"' then "&quot;".toList
  else if c = '\'' then "&#039;".toList
  else [c]

/-- The scanning state of the escaping checker: `fail` once a raw special
character or a malformed entity was seen, `normal` between tokens,
`afterAmp` right after a `&` (the next character selects which entity must
follow), and `pending cs` inside an entity with `cs` still expected. -/
inductive EscSt where
  | fail
  | normal
  | afterAmp
  | pending (cs : List Char)
deriving DecidableEq, Repr

/-- One step of the escaping checker: raw `<`, `>`, `"`, `\'` fail; `&`
must begin one of the five entities `&amp;` `&lt;` `&gt;` `&quot;`
`&#039;`, whose remaining characters are consumed and checked one by
one. -/
def escStep (st : EscSt) (c : Char) : EscSt :=
  match st with
  | EscSt.fail => EscSt.fail
  | EscSt.normal =>
      if c = '&' then EscSt.afterAmp
      else if c = '<' ∨ c = '>' ∨ c = '"' ∨ c = '\'' then EscSt.fail
      else EscSt.normal
  | EscSt.afterAmp =>
      if c = 'a' then EscSt.pending "mp;".toList
      else if c = 'l' then EscSt.pending "t;".toList
      else if c = 'g' then EscSt.pending "t;".toList
      else if c = 'q' then EscSt.pending "uot;".toList
      else if c = '#' then EscSt.pending "039;".toList
      else EscSt.fail
  | EscSt.pending l =>
      match l with
      | [] => EscSt.fail
      | e :: es =>
          if c = e then
            match es with
            | [] => EscSt.normal
            | _ :: _ => EscSt.pending es
          else EscSt.fail

/-- Decidable statement of the escaping contract: a character list is well
escaped when the checker's scan ends in the `normal` state — equivalently,
it contains no raw `<`, `>`, `"` or `\'`, and every `&` in it is the start
of one of the five entities the escaper emits (no scan failure, and no
entity left unfinished at the end). -/
def wellEscaped (s : List Char) : Bool :=
  decide (s.foldl escStep EscSt.normal = EscSt.normal)

/-- `jsReplaceAll` distributes over concatenation. -/
theorem jsReplaceAll_append (a b : List Char) (pat : Char) (rep : List Char) :
    jsReplaceAll (a ++ b) pat rep =
      jsReplaceAll a pat rep ++ jsReplaceAll b pat rep := by
  induction a with
  | nil => simp [jsReplaceAll]
  | cons c cs ih => simp [jsReplaceAll, ih]

/-- The five chained passes distribute over concatenation. -/
theorem escapeHtmlChars_append (a b : List Char) :
    escapeHtmlChars (a ++ b) = escapeHtmlChars a ++ escapeHtmlChars b := by
  simp [escapeHtmlChars, jsReplaceAll_append]

/-- On a single character the five chained passes produce `escapeTok`. -/
theorem escapeHtmlChars_singleton (c : Char) :
    escapeHtmlChars [c] = escapeTok c := by
  by_cases h1 : c = '&'
  · subst h1; decide
  · by_cases h2 : c = '<'
    · subst h2; decide
    · by_cases h3 : c = '>'
      · subst h3; decide
      · by_cases h4 : c = '"'
        · subst h4; decide
        · by_cases h5 : c = '\''
          · subst h5; decide
          · simp [escapeHtmlChars, jsReplaceAll, escapeTok, h1, h2, h3, h4, h5]

/-- The chain acts character by character. -/
theorem escapeHtmlChars_cons (c : Char) (cs : List Char) :
    escapeHtmlChars (c :: cs) = escapeTok c ++ escapeHtmlChars cs := by
  have h : c :: cs = [c] ++ cs := rfl
  rw [h, escapeHtmlChars_append, escapeHtmlChars_singleton]

/-- Scanning one escaped character block from the `normal` state returns
to the `normal` state. -/
theorem foldl_escStep_escapeTok (c : Char) :
    List.foldl escStep EscSt.normal (escapeTok c) = EscSt.normal := by
  by_cases h1 : c = '&'
  · subst h1; decide
  · by_cases h2 : c = '<'
    · subst h2; decide
    · by_cases h3 : c = '>'
      · subst h3; decide
      · by_cases h4 : c = '"'
        · subst h4; decide
        · by_cases h5 : c = '\''
          · subst h5; decide
          · have h : escapeTok c = [c] := by
              simp [escapeTok, h1, h2, h3, h4, h5]
            have hnot : ¬(c = '<' ∨ c = '>' ∨ c = '"' ∨ c = '\'') := by
              rintro (hc | hc | hc | hc) <;> simp_all
            rw [h]
            simp [escStep, h1, hnot]

/-- The checker's scan of any output of the five chained passes ends in
the `normal` state. -/
theorem escapeHtmlChars_run (s : List Char) :
    List.foldl escStep EscSt.normal (escapeHtmlChars s) = EscSt.normal := by
  induction s with
  | nil => rfl
  | cons c cs ih =>
      rw [escapeHtmlChars_cons, List.foldl_append, foldl_escStep_escapeTok, ih]

/-- C8: for every input value — null and undefined included — `escapeHtml`
returns (never throwing, being a total function of its input) a string
with no raw `<`, `>`, `"` or `\'` and in which every `&` starts one of the
five entities it emits. -/
theorem c8_escapeHtml_wellEscaped (v : Option String) :
    wellEscaped (escapeHtml v).toList = true := by
  have h := escapeHtmlChars_run (v.getD "").toList
  simp only [wellEscaped, escapeHtml, decide_eq_true_eq]
  exact h

/-- The `safeJson` helper (src/unnamed/part_000 lines 649-657) with its
external collaborators abstracted: `bodyText` is the result of awaiting
`response.text()` (`none` when it threw — caught by the try block) and
`parse` stands for `JSON.parse` (`none` when it would throw — also
caught). Empty text returns null before parsing (`if (!text) return
null`); every caught throw becomes null, so the function itself is total
and never throws. -/
def safeJson {α : Type} (bodyText : Option String) (parse : String → Option α) :
    Option α :=
  match bodyText with
  | none => none
  | some t => if t = "" then none else parse t

/-- C9: `safeJson` never throws; it returns the parsed value when the body
text is present, non-empty and parses, and returns null when the body is
empty, fails to parse, or could not even be read. -/
theorem c9_safeJson_total (α : Type) (bodyText : Option String)
    (parse : String → Option α) :
    (∀ t v, bodyText = some t → t ≠ "" → parse t = some v →
      safeJson bodyText parse = some v) ∧
    (∀ t, bodyText = some t → t ≠ "" → parse t = none →
      safeJson bodyText parse = none) ∧
    safeJson (some "") parse = none ∧
    safeJson (none : Option String) parse = none := by
  refine ⟨?_, ?_, rfl, rfl⟩
  · rintro t v rfl ht hp
    simp [safeJson, ht, hp]
  · rintro t rfl ht hp
    simp [safeJson, ht, hp]

/-- Witness for C9 with a concrete one-token parser. -/
theorem c9_safeJson_total_witness :
    safeJson (some "42") (fun t => if t = "42" then some 42 else none) = some 42 :=
  (c9_safeJson_total Nat (some "42") (fun t => if t = "42" then some 42 else none)).1
    "42" 42 rfl (by decide) (by simp)

end JobTracker
